import Mathlib

/-!
Verification of the hybrid recommendation engine
(`backend/services/recommendation-service`).

The Python services are shallowly embedded: scores and numeric attributes
become `ℚ`, Python dicts become association lists over `String`, and every
`try/except` branch that swallows an exception is embedded as the value the
handler returns.  The haversine distance (transcendental) is abstracted as a
function parameter of the location-context adjuster; none of the verified
properties depend on its value.
-/

set_option linter.unusedVariables false

/-- Association-list lookup, mirroring Python `dict.get` (first matching key). -/
def alookup {α : Type} : List (String × α) → String → Option α
  | [], _ => none
  | p :: rest, k => if p.1 = k then some p.2 else alookup rest k

/-- Insert-or-replace, mirroring Python `d[k] = v` (existing keys keep their
position, new keys are appended). -/
def dinsert {α : Type} : List (String × α) → String → α → List (String × α)
  | [], k, v => [(k, v)]
  | p :: rest, k, v => if p.1 = k then (k, v) :: rest else p :: dinsert rest k v

/-- Mirrors `defaultdict(float)`'s `d[k] += x` (missing keys read as 0). -/
def bump (m : List (String × ℚ)) (k : String) (x : ℚ) : List (String × ℚ) :=
  dinsert m k ((alookup m k).getD 0 + x)

/-- Geographic coordinate of an item (`location` payload of the data model). -/
structure Location where
  latitude : ℚ
  longitude : ℚ
  district : String
deriving DecidableEq

/-- Item record (`RecommendationItem` of the data model). -/
structure RecommendationItem where
  id : String
  type : String
  name : String
  description : String
  categories : List String
  rating : ℚ
  estimated_duration : ℚ
  estimated_cost : ℚ
  weather_dependent : Bool
  crowd_level : String
  local_authenticity_score : ℚ
  location : Location
deriving DecidableEq

/-- Explicit user preferences (`UserPreferences` of the data model); the enum
fields are carried as the strings Python's enum `value`s produce. -/
structure UserPreferences where
  interests : List String := []
  budget_range : String := "medium"
  group_type : String := "solo"
  dietary_restrictions : List String := []
  activity_level : String := "moderate"
  weather_preferences : List String := []
deriving DecidableEq

/-- The closed set of contextual-factor kinds (`ContextType`). -/
inductive ContextType where
  | weather
  | crowd
  | time
  | location
  | season
deriving DecidableEq

/-- The duck-typed `factor.value` dict: each expected key is an optional
field, `none` meaning the key is absent from the payload. -/
structure FactorValue where
  condition : Option String := none
  temperature : Option ℚ := none
  humidity : Option ℚ := none
  overall_crowd_level : Option String := none
  current_time : Option String := none
  latitude : Option ℚ := none
  longitude : Option ℚ := none
  season : Option String := none
deriving DecidableEq

/-- A contextual factor supplied with a request (`ContextualFactor`). -/
structure ContextualFactor where
  type : ContextType
  value : FactorValue
  impact : ℚ := 0
  confidence : ℚ := 1
  description : String := ""
deriving DecidableEq

/-- `ContextualScoringService.weather_impact_weights`: condition →
{outdoor, indoor} multiplier table. -/
def weather_impact_weights : List (String × List (String × ℚ)) :=
  [("sunny", [("outdoor", 6/5), ("indoor", 9/10)]),
   ("cloudy", [("outdoor", 1), ("indoor", 1)]),
   ("rainy", [("outdoor", 3/10), ("indoor", 13/10)]),
   ("stormy", [("outdoor", 1/10), ("indoor", 7/5)]),
   ("hot", [("outdoor", 4/5), ("indoor", 11/10)]),
   ("humid", [("outdoor", 7/10), ("indoor", 6/5)]),
   ("cool", [("outdoor", 11/10), ("indoor", 19/20)]),
   ("windy", [("outdoor", 9/10), ("indoor", 1)])]

/-- `ContextualScoringService.crowd_impact_weights`. -/
def crowd_impact_weights : List (String × ℚ) :=
  [("very_low", 11/10), ("low", 21/20), ("moderate", 1), ("high", 4/5), ("very_high", 1/2)]

/-- `ContextualScoringService.time_preferences`. -/
def time_preferences : List (String × List (String × ℚ)) :=
  [("morning", [("cultural", 6/5), ("outdoor", 13/10), ("shopping", 4/5)]),
   ("afternoon", [("cultural", 1), ("outdoor", 11/10), ("shopping", 6/5)]),
   ("evening", [("cultural", 9/10), ("outdoor", 4/5), ("shopping", 11/10), ("dining", 13/10)]),
   ("night", [("cultural", 7/10), ("outdoor", 1/2), ("shopping", 3/5), ("dining", 6/5), ("nightlife", 7/5)])]

/-- Checks that `sub` occurs as a contiguous prefix of `s` (char lists). -/
def charPrefixOf : List Char → List Char → Bool
  | [], _ => true
  | _ :: _, [] => false
  | c :: cs, d :: ds => c = d && charPrefixOf cs ds

/-- Checks that `sub` occurs as a contiguous substring of `s` (char lists). -/
def charSubOf (sub : List Char) : List Char → Bool
  | [] => charPrefixOf sub []
  | d :: ds => charPrefixOf sub (d :: ds) || charSubOf sub ds

/-- Python's `sub in s` substring test. -/
def containsSub (s sub : String) : Bool :=
  charSubOf sub.data s.data

/-- Python's `str.lower()` (ASCII case folding, character by character). -/
def pyLower (s : String) : String :=
  String.mk (s.data.map Char.toLower)

/-- Python's `' '.join(parts)`. -/
def joinSpace : List String → String
  | [] => ""
  | [s] => s
  | s :: rest => s ++ " " ++ joinSpace rest

/-- Outdoor keyword list of `_classify_item_environment`. -/
def outdoor_keywords : List String :=
  ["outdoor", "hiking", "beach", "park", "garden", "mountain", "trail"]

/-- Indoor keyword list of `_classify_item_environment`. -/
def indoor_keywords : List String :=
  ["indoor", "museum", "mall", "restaurant", "theater", "gallery"]

/-- The lowercased `f"{name} {description} {joined categories}"` text. -/
def itemText (item : RecommendationItem) : String :=
  pyLower (item.name ++ " " ++ item.description ++ " " ++ joinSpace item.categories)

/-- `ContextualScoringService._classify_item_environment`: keyword-count vote
between outdoor and indoor, ties giving `"mixed"`. -/
def classify_item_environment (item : RecommendationItem) : String :=
  let text := itemText item
  let outdoorScore := (outdoor_keywords.filter (fun k => containsSub text k)).length
  let indoorScore := (indoor_keywords.filter (fun k => containsSub text k)).length
  if indoorScore < outdoorScore then "outdoor"
  else if outdoorScore < indoorScore then "indoor"
  else "mixed"

/-- `ContextualScoringService._apply_weather_context`.  Missing payload keys
fall back to the Python defaults (`cloudy` / 25 / 70). -/
def applyWeatherContext (items : List RecommendationItem) (scores : List ℚ)
    (factor : ContextualFactor) (prefs : UserPreferences) : List ℚ :=
  let condition := factor.value.condition.getD "cloudy"
  let temperature := factor.value.temperature.getD 25
  let humidity := factor.value.humidity.getD 70
  (items.zip scores).map (fun p =>
    let item := p.1
    let a1 : ℚ :=
      if item.weather_dependent then
        match alookup weather_impact_weights condition with
        | some ws => (alookup ws (classify_item_environment item)).getD 1
        | none => 1
      else 1
    let a2 : ℚ :=
      if 30 < temperature then
        (if item.categories.contains "outdoor" || item.categories.contains "hiking" then 7/10
         else if item.categories.contains "indoor" || item.categories.contains "mall" then 6/5
         else 1)
      else if temperature < 15 then
        (if item.categories.contains "outdoor" then 9/10
         else if item.categories.contains "hot springs" || item.categories.contains "indoor" then 11/10
         else 1)
      else 1
    let a3 : ℚ :=
      if 80 < humidity then
        (if item.categories.contains "outdoor" then 4/5
         else if item.categories.contains "air-conditioned" then 11/10
         else 1)
      else 1
    let a4 : ℚ :=
      if prefs.weather_preferences.contains "indoor_preferred" then
        (if classify_item_environment item = "indoor" then 11/10 else 1)
      else if prefs.weather_preferences.contains "outdoor_preferred" then
        (if classify_item_environment item = "outdoor" then 11/10 else 1)
      else 1
    let adjustment := a1 * a2 * a3 * a4
    p.2 * (1 + (adjustment - 1) * factor.confidence))

/-- `ContextualScoringService._apply_crowd_context`.  The per-item crowd-level
multiplier is applied whether or not the payload carries
`overall_crowd_level`. -/
def applyCrowdContext (items : List RecommendationItem) (scores : List ℚ)
    (factor : ContextualFactor) : List ℚ :=
  (items.zip scores).map (fun p =>
    let a0 := (alookup crowd_impact_weights p.1.crowd_level).getD 1
    let a : ℚ :=
      match factor.value.overall_crowd_level with
      | some overall =>
          if overall = "high" ∧ (p.1.crowd_level = "very_low" ∨ p.1.crowd_level = "low")
          then a0 * (6/5) else a0
      | none => a0
    p.2 * (1 + (a - 1) * factor.confidence))

/-- `ContextualScoringService._get_time_period`. -/
def get_time_period (hour : ℤ) : String :=
  if 6 ≤ hour ∧ hour < 12 then "morning"
  else if 12 ≤ hour ∧ hour < 18 then "afternoon"
  else if 18 ≤ hour ∧ hour < 22 then "evening"
  else "night"

/-- `int(current_time.split(':')[0])`; parse failure is the caught
`ValueError` path. -/
def parseHour (t : String) : Option ℤ :=
  ((t.splitOn ":").headD "").toInt?

/-- `ContextualScoringService._apply_time_context`.  A missing or falsy
`current_time` (and an unparseable hour, whose `ValueError` the service
catches) returns the scores unchanged. -/
def applyTimeContext (items : List RecommendationItem) (scores : List ℚ)
    (factor : ContextualFactor) : List ℚ :=
  match factor.value.current_time with
  | none => scores
  | some t =>
    if t = "" then scores else
    match parseHour t with
    | none => scores
    | some hour =>
      let period := get_time_period hour
      let tw := (alookup time_preferences period).getD []
      (items.zip scores).map (fun p =>
        let a1 : ℚ :=
          match p.1.categories.find? (fun c => (alookup tw (pyLower c)).isSome) with
          | some c => (alookup tw (pyLower c)).getD 1
          | none => 1
        let a2 : ℚ :=
          if period = "morning" then
            (if p.1.categories.contains "breakfast" || p.1.categories.contains "dim sum"
             then 13/10 else 1)
          else if period = "evening" then
            (if p.1.categories.contains "sunset" || p.1.categories.contains "night view"
             then 6/5 else 1)
          else if period = "night" then
            (if p.1.categories.contains "night market" || p.1.categories.contains "bar"
             then 13/10 else 1)
          else 1
        p.2 * (1 + (a1 * a2 - 1) * factor.confidence))

/-- `ContextualScoringService._apply_location_context`, with the haversine
distance abstracted as `dist`.  A payload without `latitude` is the guarded
no-op; one with `latitude` but no `longitude` is the caught `KeyError`
path, which also returns the scores unchanged. -/
def applyLocationContext (dist : ℚ → ℚ → ℚ → ℚ → ℚ)
    (items : List RecommendationItem) (scores : List ℚ)
    (factor : ContextualFactor) : List ℚ :=
  match factor.value.latitude with
  | none => scores
  | some lat =>
    match factor.value.longitude with
    | none => scores
    | some lon =>
      (items.zip scores).map (fun p =>
        let d := dist lat lon p.1.location.latitude p.1.location.longitude
        let a : ℚ :=
          if d < 1 then 6/5
          else if d < 5 then 11/10
          else if d < 10 then 1
          else if d < 20 then 9/10
          else 4/5
        p.2 * (1 + (a - 1) * factor.confidence))

/-- The seasonal category multiplier tables of `_apply_seasonal_context`. -/
def seasonal_weights : List (String × List (String × ℚ)) :=
  [("spring", [("outdoor", 11/10), ("flowers", 13/10), ("hiking", 6/5)]),
   ("summer", [("beach", 13/10), ("water", 6/5), ("indoor", 11/10), ("outdoor", 9/10)]),
   ("autumn", [("hiking", 6/5), ("outdoor", 11/10), ("cultural", 11/10)]),
   ("winter", [("indoor", 6/5), ("hot springs", 13/10), ("cultural", 11/10), ("outdoor", 4/5)])]

/-- `ContextualScoringService._apply_seasonal_context`; a missing `season`
key defaults to `"spring"`. -/
def applySeasonalContext (items : List RecommendationItem) (scores : List ℚ)
    (factor : ContextualFactor) : List ℚ :=
  let sw := (alookup seasonal_weights (factor.value.season.getD "spring")).getD []
  (items.zip scores).map (fun p =>
    let a : ℚ :=
      match p.1.categories.find? (fun c => (alookup sw (pyLower c)).isSome) with
      | some c => (alookup sw (pyLower c)).getD 1
      | none => 1
    p.2 * (1 + (a - 1) * factor.confidence))

/-- `ContextualScoringService.apply_contextual_scoring`: factors compose in
list order; a length mismatch raises a `ValueError` the same function
catches, returning the base scores. -/
def apply_contextual_scoring (dist : ℚ → ℚ → ℚ → ℚ → ℚ)
    (items : List RecommendationItem) (base_scores : List ℚ)
    (factors : List ContextualFactor) (prefs : UserPreferences) : List ℚ :=
  if items.length = base_scores.length then
    factors.foldl (fun scores factor =>
      match factor.type with
      | ContextType.weather => applyWeatherContext items scores factor prefs
      | ContextType.crowd => applyCrowdContext items scores factor
      | ContextType.time => applyTimeContext items scores factor
      | ContextType.location => applyLocationContext dist items scores factor
      | ContextType.season => applySeasonalContext items scores factor) base_scores
  else base_scores

/-- A single user interaction (`UserInteraction` of the data model); the
optional `context` dict carries string values. -/
structure UserInteraction where
  user_id : String
  item_id : String
  interaction_type : String
  rating : Option ℚ := none
  timestamp : ℚ := 0
  context : List (String × String) := []
deriving DecidableEq

/-- Per-user profile (`UserProfile` of the data model). -/
structure UserProfile where
  user_id : String
  preferences : UserPreferences := {}
  interaction_history : List UserInteraction := []
  learned_preferences : List (String × ℚ) := []
  similarity_scores : List (String × ℚ) := []
  last_updated : ℚ := 0
deriving DecidableEq

/-- A recommendation request (`RecommendationRequest`); `recommendation_types`
carries the enum `value` strings. -/
structure RecommendationRequest where
  user_id : String
  preferences : UserPreferences
  contextual_factors : List ContextualFactor := []
  recommendation_types : List String := []
  max_results : Nat := 10
  include_alternatives : Bool := true
deriving DecidableEq

/-- A generated recommendation (`RecommendationResponse`); timestamps are
rationals supplied by the ambient clock. -/
structure RecommendationResponse where
  id : String
  user_id : String
  item : RecommendationItem
  personalized_score : ℚ
  contextual_factors : List ContextualFactor := []
  reasoning : String := ""
  alternatives : List RecommendationItem := []
  generated_at : ℚ := 0
  valid_until : ℚ := 0
deriving DecidableEq

/-- `RecommendationEngine.algorithm_weights`, in the dict's insertion order. -/
def algorithm_weights : List (String × ℚ) :=
  [("collaborative", 3/10), ("content_based", 2/5), ("contextual", 1/5),
   ("preference_learning", 1/10)]

/-- The `final_score` combination of `_generate_hybrid_recommendations`:
`sum(scores.get(approach, 0.5) * weight for approach, weight in
self.algorithm_weights.items())`. -/
def combine_scores (scores : List (String × ℚ)) : ℚ :=
  (algorithm_weights.map (fun p => ((alookup scores p.1).getD (1/2)) * p.2)).sum

/-- The pre-contextual combined score of one candidate: the `scores` dict holds
the content-based score, the collaborative score and the preference-learning
score `(predicted_rating - 1) / 4`. -/
def hybrid_base_score (content_score collab_score predicted_rating : ℚ) : ℚ :=
  combine_scores
    [("content_based", content_score), ("collaborative", collab_score),
     ("preference_learning", (predicted_rating - 1) / 4)]

/-- The `budget_ranges` table of `_filter_candidate_items` (upper bound `none`
is Python's `float('inf')`). -/
def budget_ranges : List (String × (ℚ × Option ℚ)) :=
  [("low", (0, some 100)), ("medium", (0, some 300)), ("high", (0, some 800)),
   ("luxury", (0, none))]

/-- `budget_range[0] <= cost <= budget_range[1]`. -/
def inBudgetRange (bounds : ℚ × Option ℚ) (cost : ℚ) : Bool :=
  decide (bounds.1 ≤ cost) &&
    (match bounds.2 with
     | none => true
     | some hi => decide (cost ≤ hi))

/-- `RecommendationEngine._filter_candidate_items`: type filter, budget-band
cost filter, dietary-restriction text exclusion for restaurants. -/
def filter_candidate_items (available_items : List RecommendationItem)
    (request : RecommendationRequest) : List RecommendationItem :=
  let c1 :=
    if request.recommendation_types.isEmpty then available_items
    else available_items.filter (fun item => request.recommendation_types.contains item.type)
  let bounds := (alookup budget_ranges request.preferences.budget_range).getD (0, none)
  let c2 := c1.filter (fun item => inBudgetRange bounds item.estimated_cost)
  if request.preferences.dietary_restrictions.isEmpty then c2
  else c2.filter (fun item =>
    !(item.type = "restaurant" &&
      request.preferences.dietary_restrictions.any
        (fun r => containsSub (pyLower item.description) r)))

/-- `PreferenceLearningService.interaction_weights`. -/
def preference_interaction_weights : List (String × ℚ) :=
  [("view", 1/10), ("like", 3/10), ("visit", 7/10), ("rate", 1), ("share", 2/5),
   ("save", 1/2)]

/-- `PreferenceLearningService._get_interaction_weight`: base weight by type
(default 0.1) times `rating / 5` when a rating is present. -/
def get_interaction_weight (interaction : UserInteraction) : ℚ :=
  let base := (alookup preference_interaction_weights interaction.interaction_type).getD (1/10)
  match interaction.rating with
  | some r => base * (r / 5)
  | none => base

/-- Per-user learned-preference maps of the `PreferenceLearningService`. -/
abbrev PrefState := List (String × List (String × ℚ))

/-- `PreferenceLearningService._learn_from_item_attributes`. -/
def learn_from_item_attributes (m : List (String × ℚ)) (item : RecommendationItem)
    (weight lr : ℚ) : List (String × ℚ) :=
  let m :=
    if item.estimated_cost < 100 then bump m "budget_low" (weight * lr)
    else if item.estimated_cost < 300 then bump m "budget_medium" (weight * lr)
    else if item.estimated_cost < 800 then bump m "budget_high" (weight * lr)
    else bump m "budget_luxury" (weight * lr)
  let m :=
    if item.estimated_duration < 120 then bump m "duration_short" (weight * lr)
    else if item.estimated_duration < 240 then bump m "duration_medium" (weight * lr)
    else bump m "duration_long" (weight * lr)
  let m :=
    if 9/2 ≤ item.rating then bump m "quality_high" (weight * lr)
    else if 7/2 ≤ item.rating then bump m "quality_medium" (weight * lr)
    else bump m "quality_low" (weight * lr)
  let m :=
    if 4/5 ≤ item.local_authenticity_score then bump m "authenticity_high" (weight * lr)
    else if 1/2 ≤ item.local_authenticity_score then bump m "authenticity_medium" (weight * lr)
    else bump m "authenticity_low" (weight * lr)
  bump m ("crowd_" ++ item.crowd_level) (weight * lr)

/-- `PreferenceLearningService._learn_from_context`. -/
def learn_from_context (m : List (String × ℚ)) (context : List (String × String))
    (weight lr : ℚ) : List (String × ℚ) :=
  let m :=
    match alookup context "weather" with
    | some w => bump m ("weather_" ++ pyLower w) (weight * lr)
    | none => m
  let m :=
    match alookup context "time_of_day" with
    | some t => bump m ("time_" ++ pyLower t) (weight * lr)
    | none => m
  match alookup context "district" with
  | some d => bump m ("district_" ++ pyLower d) (weight * lr)
  | none => m

/-- The `item_lookup` dict of `learn_from_interactions`: later catalog entries
with the same id overwrite earlier ones. -/
def item_lookup (items : List RecommendationItem) (itemId : String) :
    Option RecommendationItem :=
  items.reverse.find? (fun item => item.id = itemId)

/-- The per-interaction body of `learn_from_interactions`: interactions whose
item is not in the catalog are skipped. -/
def process_interaction (items : List RecommendationItem) (lr : ℚ)
    (m : List (String × ℚ)) (interaction : UserInteraction) : List (String × ℚ) :=
  match item_lookup items interaction.item_id with
  | none => m
  | some item =>
    let weight := get_interaction_weight interaction
    let m := item.categories.foldl
      (fun acc c => bump acc ("category_" ++ pyLower c) (weight * lr)) m
    let m := learn_from_item_attributes m item weight lr
    if interaction.context.isEmpty then m
    else learn_from_context m interaction.context weight lr

/-- `PreferenceLearningService._apply_temporal_decay`: every signal is
multiplied by the decay factor, and a decayed value below 0.01 (a signed
comparison in the source, with no `abs`) is reset to 0.  The 30-day cutoff
date computed in the source is never used. -/
def apply_temporal_decay (m : List (String × ℚ)) (decay : ℚ) : List (String × ℚ) :=
  m.map (fun p =>
    let v := p.2 * decay
    (p.1, if v < 1/100 then 0 else v))

/-- `PreferenceLearningService.learn_from_interactions`: returns the updated
service state together with the map the call returns (`dict(learned_prefs)`
after the in-place decay).  Decay is skipped for an empty batch. -/
def learn_from_interactions (st : PrefState) (userId : String)
    (interactions : List UserInteraction) (items : List RecommendationItem)
    (lr decay : ℚ) : PrefState × List (String × ℚ) :=
  let m0 := (alookup st userId).getD []
  let m1 := interactions.foldl (process_interaction items lr) m0
  let m2 := if interactions.isEmpty then m1 else apply_temporal_decay m1 decay
  (dinsert st userId m2, m2)

/-- `max(abs(v) for v in prefs.values())` over a non-empty map, 1 otherwise. -/
def max_abs_val (m : List (String × ℚ)) : ℚ :=
  match m with
  | [] => 1
  | p :: rest => rest.foldl (fun acc q => max acc |q.2|) |p.2|

/-- The normalization step of `get_learned_preferences`: values are divided by
the maximum absolute value only when that maximum exceeds 1. -/
def normalize_preferences (m : List (String × ℚ)) : List (String × ℚ) :=
  if 1 < max_abs_val m then m.map (fun p => (p.1, p.2 / max_abs_val m)) else m

/-- `PreferenceLearningService.get_learned_preferences`: empty map for an
unknown user, normalized map otherwise. -/
def get_learned_preferences (st : PrefState) (userId : String) :
    List (String × ℚ) :=
  match alookup st userId with
  | none => []
  | some m => normalize_preferences m

/-- The positive keyword → signal dictionary of `_process_text_feedback`. -/
def positive_feedback_keywords : List (String × String) :=
  [("authentic", "authenticity_high"), ("local", "authenticity_high"),
   ("quiet", "crowd_low"), ("peaceful", "crowd_low"),
   ("affordable", "budget_low"), ("cheap", "budget_low"),
   ("quick", "duration_short"), ("fast", "duration_short"),
   ("beautiful", "quality_high"), ("amazing", "quality_high"),
   ("excellent", "quality_high")]

/-- The negative keyword → signal dictionary of `_process_text_feedback`. -/
def negative_feedback_keywords : List (String × String) :=
  [("crowded", "crowd_high"), ("busy", "crowd_high"),
   ("expensive", "budget_high"), ("costly", "budget_high"),
   ("long", "duration_long"), ("slow", "duration_long"),
   ("touristy", "authenticity_low"), ("fake", "authenticity_low"),
   ("poor", "quality_low"), ("bad", "quality_low")]

/-- `PreferenceLearningService._update_attribute_preferences` (budget,
duration and crowd signals only). -/
def update_attribute_preferences (m : List (String × ℚ)) (item : RecommendationItem)
    (fw lr : ℚ) : List (String × ℚ) :=
  let m :=
    if item.estimated_cost < 100 then bump m "budget_low" (fw * lr)
    else if item.estimated_cost < 300 then bump m "budget_medium" (fw * lr)
    else if item.estimated_cost < 800 then bump m "budget_high" (fw * lr)
    else bump m "budget_luxury" (fw * lr)
  let m :=
    if item.estimated_duration < 120 then bump m "duration_short" (fw * lr)
    else if item.estimated_duration < 240 then bump m "duration_medium" (fw * lr)
    else bump m "duration_long" (fw * lr)
  bump m ("crowd_" ++ item.crowd_level) (fw * lr)

/-- `PreferenceLearningService._process_text_feedback`: keyword scans add or
subtract `|feedback_weight| * learning_rate`. -/
def process_text_feedback (m : List (String × ℚ)) (feedback : String)
    (fw lr : ℚ) : List (String × ℚ) :=
  let fl := pyLower feedback
  let m := positive_feedback_keywords.foldl
    (fun acc p => if containsSub fl p.1 then bump acc p.2 (|fw| * lr) else acc) m
  negative_feedback_keywords.foldl
    (fun acc p => if containsSub fl p.1 then bump acc p.2 (-(|fw| * lr)) else acc) m

/-- `PreferenceLearningService.update_preferences_from_feedback`; the rating
maps to a signed weight `(rating - 3) / 2` and falsy (empty) feedback text is
skipped. -/
def update_preferences_from_feedback (st : PrefState) (userId recommendationId : String)
    (rating : ℚ) (feedback : Option String) (item : RecommendationItem)
    (lr : ℚ) : PrefState :=
  let m := (alookup st userId).getD []
  let fw := (rating - 3) / 2
  let m := item.categories.foldl
    (fun acc c => bump acc ("category_" ++ pyLower c) (fw * lr)) m
  let m := update_attribute_preferences m item fw lr
  let m :=
    match feedback with
    | some f => if f = "" then m else process_text_feedback m f fw lr
    | none => m
  dinsert st userId m

/-- `CollaborativeFilteringService._get_interaction_weight`: base weights
view 1, like 2, visit 3, rate 4 (default 1), scaled by `rating / 5` when a
rating is present. -/
def collab_interaction_weights : List (String × ℚ) :=
  [("view", 1), ("like", 2), ("visit", 3), ("rate", 4)]

/-- The collaborative interaction weight. -/
def collab_interaction_weight (interaction : UserInteraction) : ℚ :=
  let base := (alookup collab_interaction_weights interaction.interaction_type).getD 1
  match interaction.rating with
  | some r => base * (r / 5)
  | none => base

/-- The mutable state of the `CollaborativeFilteringService` the embedded
claims touch: the per-user profile dict and the user → (user → similarity)
table produced by `compute_user_similarities`. -/
structure CollabState where
  user_profiles : List (String × UserProfile)
  user_similarities : List (String × List (String × ℚ))
deriving DecidableEq

/-- Stable insertion into a list sorted descending by the second component
(ties keep earlier elements first, as Python's stable `sorted`). -/
def insert_desc_by_snd {α : Type} (p : α × ℚ) : List (α × ℚ) → List (α × ℚ)
  | [] => [p]
  | q :: rest => if q.2 < p.2 then p :: q :: rest else q :: insert_desc_by_snd p rest

/-- `sorted(pairs, key=lambda x: x[1], reverse=True)` (stable). -/
def sort_desc_by_snd {α : Type} (l : List (α × ℚ)) : List (α × ℚ) :=
  l.foldl (fun acc p => insert_desc_by_snd p acc) []

/-- `CollaborativeFilteringService.find_similar_users`. -/
def find_similar_users (cs : CollabState) (userId : String) (topK : Nat) :
    List (String × ℚ) :=
  match alookup cs.user_similarities userId with
  | none => []
  | some sims => (sort_desc_by_snd sims).take topK

/-- For one candidate item, the `(similarity * interaction_weight, similarity)`
pairs contributed by the similar users who interacted with it (first matching
interaction per neighbor, as the source `break`s). -/
def neighbor_contribs (cs : CollabState) (similar_users : List (String × ℚ))
    (itemId : String) : List (ℚ × ℚ) :=
  similar_users.filterMap (fun su =>
    match alookup cs.user_profiles su.1 with
    | none => none
    | some sp =>
      (sp.interaction_history.find? (fun i => i.item_id = itemId)).map
        (fun inter => (su.2 * collab_interaction_weight inter, su.2)))

/-- The per-item body of the `item_scores` loop of
`generate_collaborative_recommendations`: skip items the user interacted
with, and record `score / total_weight` only when `total_weight > 0`. -/
def collab_score_step (cs : CollabState) (similar_users : List (String × ℚ))
    (interacted : List String) (acc : List (String × ℚ))
    (item : RecommendationItem) : List (String × ℚ) :=
  if interacted.contains item.id then acc
  else
    let contribs := neighbor_contribs cs similar_users item.id
    let total_weight := (contribs.map Prod.snd).sum
    if 0 < total_weight then
      dinsert acc item.id (((contribs.map Prod.fst).sum) / total_weight)
    else acc

/-- `CollaborativeFilteringService.generate_collaborative_recommendations`:
skips items the user interacted with, scores the rest as
`score / total_weight` when `total_weight > 0`, sorts descending and maps the
top-k ids back to items. -/
def generate_collaborative_recommendations (cs : CollabState) (userId : String)
    (available_items : List RecommendationItem) (topK : Nat) :
    List (RecommendationItem × ℚ) :=
  let similar_users := find_similar_users cs userId 10
  if similar_users.isEmpty then [] else
  match alookup cs.user_profiles userId with
  | none => []
  | some profile =>
    let interacted := profile.interaction_history.map (fun i => i.item_id)
    let item_scores :=
      available_items.foldl (collab_score_step cs similar_users interacted) []
    let sorted_items := sort_desc_by_snd item_scores
    (sorted_items.take topK).filterMap (fun p =>
      (available_items.find? (fun item => item.id = p.1)).map (fun item => (item, p.2)))

/-- The collaborative score `_generate_hybrid_recommendations` consumes for one
candidate: `collab_recs[0][1] if collab_recs else 0.5`. -/
def collab_score_for_item (cs : CollabState) (userId : String)
    (item : RecommendationItem) : ℚ :=
  match generate_collaborative_recommendations cs userId [item] 1 with
  | [] => 1/2
  | p :: _ => p.2

/-- The shared mutable state of the `RecommendationEngine` that the embedded
entry points read and write. -/
structure EngineState where
  user_profiles : List (String × UserProfile)
  recommendation_history : List (String × List RecommendationResponse)
  preference_state : PrefState
  collab : CollabState
deriving DecidableEq

/-- `CollaborativeFilteringService.update_user_interactions`.  The full
matrix-and-similarity recomputation (SVD plus cosine similarity, numeric code
outside this embedding) is abstracted as `recompute`; it is triggered only
when the batch reaches `min_interactions = 5` and, per the source's
`_incremental_update` guard, at least 5 profiles exist. -/
def update_user_interactions (recompute : CollabState → CollabState)
    (cs : CollabState) (userId : String) (interactions : List UserInteraction) :
    CollabState :=
  let cs1 :=
    match alookup cs.user_profiles userId with
    | some p =>
      let p2 : UserProfile :=
        { p with interaction_history := p.interaction_history ++ interactions }
      { cs with user_profiles := dinsert cs.user_profiles userId p2 }
    | none =>
      let p2 : UserProfile :=
        { user_id := userId, preferences := {}, interaction_history := interactions }
      { cs with user_profiles := cs.user_profiles ++ [(userId, p2)] }
  if 5 ≤ interactions.length then
    (if 5 ≤ cs1.user_profiles.length then recompute cs1 else cs1)
  else cs1

/-- `RecommendationEngine.process_feedback`: an unknown recommendation id logs
a warning and returns with no state change; a known one feeds the preference
learner, appends a synthetic `rate` interaction to the profile and pushes it
into the collaborative service. -/
def process_feedback (recompute : CollabState → CollabState) (st : EngineState)
    (userId recommendationId : String) (rating : ℚ) (feedback : Option String) :
    Except String EngineState :=
  let user_recs := (alookup st.recommendation_history userId).getD []
  match user_recs.find? (fun r => r.id = recommendationId) with
  | none => Except.ok st
  | some recommendation =>
    let ps := update_preferences_from_feedback st.preference_state userId
      recommendationId rating feedback recommendation.item (1/10)
    let interaction : UserInteraction :=
      { user_id := userId, item_id := recommendation.item.id,
        interaction_type := "rate", rating := some rating,
        context := [("recommendation_id", recommendationId)] }
    let profiles :=
      match alookup st.user_profiles userId with
      | some p =>
        let p2 : UserProfile :=
          { p with interaction_history := p.interaction_history ++ [interaction] }
        dinsert st.user_profiles userId p2
      | none => st.user_profiles
    let cs := update_user_interactions recompute st.collab userId [interaction]
    Except.ok { st with preference_state := ps, user_profiles := profiles, collab := cs }

/-- Valid `BudgetRange` enum values (the keys of the engine's budget tables). -/
def budget_range_values : List String := ["low", "medium", "high", "luxury"]

/-- Valid `GroupType` enum values (model module; values inferred from the
defaults the engine uses — the embedded claims never depend on this set). -/
def group_type_values : List String := ["solo", "couple", "family", "friends", "business"]

/-- Valid `ActivityLevel` enum values (the keys of the engine's
`activity_mapping`). -/
def activity_level_values : List String := ["low", "moderate", "high", "extreme"]

/-- The incoming `preferences` dict of `update_user_preferences`: each field
optional, mirroring `preferences.get(key, default)`. -/
structure PreferenceUpdate where
  interests : Option (List String) := none
  budget_range : Option String := none
  group_type : Option String := none
  dietary_restrictions : Option (List String) := none
  activity_level : Option String := none
  weather_preferences : Option (List String) := none
deriving DecidableEq

/-- Python enum construction `Enum(value)`: `ValueError` on an invalid value. -/
def parse_enum_value (valid : List String) (s : String) : Except String String :=
  if valid.contains s then Except.ok s else Except.error "ValueError"

/-- `RecommendationEngine.update_user_preferences`: a user id with no stored
profile falls through the `if user_id in self.user_profiles` guard and the
call returns with nothing changed; for an existing profile the explicit
preferences are replaced and the preference learner is re-run over the
stored history (enum parse failures are logged and re-raised). -/
def update_user_preferences (st : EngineState) (userId : String)
    (preferences : PreferenceUpdate) (available_items : List RecommendationItem)
    (now : ℚ) : Except String EngineState :=
  match alookup st.user_profiles userId with
  | none => Except.ok st
  | some profile =>
    match parse_enum_value budget_range_values (preferences.budget_range.getD "medium"),
          parse_enum_value group_type_values (preferences.group_type.getD "solo"),
          parse_enum_value activity_level_values (preferences.activity_level.getD "moderate") with
    | Except.ok b, Except.ok g, Except.ok a =>
      let newPrefs : UserPreferences :=
        { interests := preferences.interests.getD [],
          budget_range := b, group_type := g,
          dietary_restrictions := preferences.dietary_restrictions.getD [],
          activity_level := a,
          weather_preferences := preferences.weather_preferences.getD [] }
      let profile2 : UserProfile :=
        { profile with preferences := newPrefs, last_updated := now }
      let profiles := dinsert st.user_profiles userId profile2
      let ps := (learn_from_interactions st.preference_state userId
        profile.interaction_history available_items (1/10) (19/20)).1
      Except.ok { st with user_profiles := profiles, preference_state := ps }
    | _, _, _ => Except.error "ValueError"

/-- A catalog item with crowd level `high`, used by the concrete scenarios. -/
def highCrowdItem : RecommendationItem :=
  { id := "busy_market", type := "attraction", name := "Ladies Market",
    description := "bustling street market", categories := ["shopping", "street market"],
    rating := 4, estimated_duration := 90, estimated_cost := 0,
    weather_dependent := false, crowd_level := "high",
    local_authenticity_score := 7/10,
    location := { latitude := 22, longitude := 114, district := "mong kok" } }

/-- A crowd contextual factor whose payload is empty (no
`overall_crowd_level` key). -/
def crowdFactorNoKey : ContextualFactor :=
  { type := ContextType.crowd, value := {}, confidence := 1 }

/-- An outdoor, weather-dependent item for the sunny-weather scenario. -/
def outdoorPeakItem : RecommendationItem :=
  { id := "outdoor_peak", type := "attraction", name := "Peak Trail",
    description := "scenic mountain walk", categories := ["outdoor", "scenic"],
    rating := 9/2, estimated_duration := 180, estimated_cost := 65,
    weather_dependent := true, crowd_level := "moderate",
    local_authenticity_score := 3/5,
    location := { latitude := 22, longitude := 114, district := "central" } }

/-- An indoor, non-weather-dependent item for the sunny-weather scenario. -/
def indoorMuseumItem : RecommendationItem :=
  { id := "indoor_museum", type := "attraction", name := "City Museum",
    description := "art exhibits in a grand hall", categories := ["indoor", "museum"],
    rating := 4, estimated_duration := 120, estimated_cost := 30,
    weather_dependent := false, crowd_level := "moderate",
    local_authenticity_score := 7/10,
    location := { latitude := 22, longitude := 114, district := "central" } }

/-- The "sunny, 25 degrees, confidence 1" weather factor of Scenario A. -/
def sunnyFactor : ContextualFactor :=
  { type := ContextType.weather,
    value := { condition := some "sunny", temperature := some 25 },
    confidence := 1 }

/-- An item one collaborative neighbor has rated, for the collaborative
scenarios. -/
def collabItemX : RecommendationItem :=
  { id := "item_x", type := "attraction", name := "Harbour Cruise",
    description := "boat tour of the harbour", categories := ["water", "scenic"],
    rating := 4, estimated_duration := 60, estimated_cost := 10,
    weather_dependent := true, crowd_level := "low",
    local_authenticity_score := 1/2,
    location := { latitude := 22, longitude := 114, district := "central" } }

/-- The target user of the collaborative scenarios (no interactions yet). -/
def aliceProfile : UserProfile := { user_id := "alice" }

/-- A neighbor who issued a `rate` interaction (no numeric rating) on
`collabItemX`. -/
def bobProfile : UserProfile :=
  { user_id := "bob",
    interaction_history := [{ user_id := "bob", item_id := "item_x",
                              interaction_type := "rate" }] }

/-- A collaborative state where `alice` has one neighbor `bob` at
similarity 1. -/
def collabStateHighScore : CollabState :=
  { user_profiles := [("alice", aliceProfile), ("bob", bobProfile)],
    user_similarities := [("alice", [("bob", 1)])] }

/-- A catalog item costing 800, for the low-budget filtering scenario. -/
def expensiveShowItem : RecommendationItem :=
  { id := "lux_show", type := "activity", name := "Private Yacht Night",
    description := "exclusive evening cruise", categories := ["luxury", "water"],
    rating := 5, estimated_duration := 240, estimated_cost := 800,
    weather_dependent := false, crowd_level := "very_low",
    local_authenticity_score := 2/5,
    location := { latitude := 22, longitude := 114, district := "central" } }

/-- A request with budget tier `low`. -/
def lowBudgetRequest : RecommendationRequest :=
  { user_id := "tourist_1", preferences := { budget_range := "low" } }

/-- An engine state with one existing user `carol` holding one stored
recommendation and a learned-preference entry. -/
def feedbackState : EngineState :=
  { user_profiles := [("carol", { user_id := "carol" })],
    recommendation_history :=
      [("carol", [{ id := "rec_1", user_id := "carol", item := collabItemX,
                    personalized_score := 1/2, valid_until := 24 }])],
    preference_state := [("carol", [("category_outdoor", 1/5)])],
    collab := { user_profiles := [], user_similarities := [] } }

/-- A preference state holding one negative learned signal of magnitude
1/2 for user `u`. -/
def decayPrefState : PrefState := [("u", [("category_museum", -1/2)])]

/-- A non-empty interaction batch referencing an item absent from the
catalog (so the batch adds no signal and only triggers the decay pass). -/
def decayBatch : List UserInteraction :=
  [{ user_id := "u", item_id := "missing_item", interaction_type := "view" }]

/-- A successful association-list lookup exposes a stored entry. -/
theorem alookup_mem {α : Type} {m : List (String × α)} {k : String} {v : α}
    (h : alookup m k = some v) : (k, v) ∈ m := by
  induction m with
  | nil => simp [alookup] at h
  | cons p rest ih =>
    rw [alookup] at h
    split at h
    · next heq =>
      cases h
      subst heq
      simp
    · exact List.mem_cons_of_mem _ (ih h)

/-- Entries of `dinsert` are the new pair or old entries. -/
theorem mem_dinsert {α : Type} {m : List (String × α)} {k : String} {v : α}
    {q : String × α} (h : q ∈ dinsert m k v) : q = (k, v) ∨ q ∈ m := by
  induction m with
  | nil => simpa [dinsert] using h
  | cons p rest ih =>
    rw [dinsert] at h
    split at h
    · rcases List.mem_cons.1 h with h1 | h1
      · exact Or.inl h1
      · exact Or.inr (List.mem_cons_of_mem _ h1)
    · rcases List.mem_cons.1 h with h1 | h1
      · exact Or.inr (h1 ▸ List.mem_cons_self _ _)
      · rcases ih h1 with h2 | h2
        · exact Or.inl h2
        · exact Or.inr (List.mem_cons_of_mem _ h2)

/-- Membership is preserved by descending insertion. -/
theorem mem_insert_desc_by_snd {α : Type} {p q : α × ℚ} {l : List (α × ℚ)}
    (h : q ∈ insert_desc_by_snd p l) : q = p ∨ q ∈ l := by
  induction l with
  | nil => simpa [insert_desc_by_snd] using h
  | cons r rest ih =>
    rw [insert_desc_by_snd] at h
    split at h
    · rcases List.mem_cons.1 h with h1 | h1
      · exact Or.inl h1
      · exact Or.inr h1
    · rcases List.mem_cons.1 h with h1 | h1
      · exact Or.inr (h1 ▸ List.mem_cons_self _ _)
      · rcases ih h1 with h2 | h2
        · exact Or.inl h2
        · exact Or.inr (List.mem_cons_of_mem _ h2)

/-- Auxiliary fold form of sorting membership. -/
theorem mem_sort_desc_aux {α : Type} :
    ∀ (l acc : List (α × ℚ)) (q : α × ℚ),
      q ∈ l.foldl (fun acc p => insert_desc_by_snd p acc) acc → q ∈ acc ∨ q ∈ l := by
  intro l
  induction l with
  | nil => exact fun acc q h => Or.inl h
  | cons p rest ih =>
    intro acc q h
    rcases ih _ q h with h1 | h1
    · rcases mem_insert_desc_by_snd h1 with h2 | h2
      · exact Or.inr (h2 ▸ List.mem_cons_self _ _)
      · exact Or.inl h2
    · exact Or.inr (List.mem_cons_of_mem _ h1)

/-- The stable descending sort permutes membership. -/
theorem mem_sort_desc_by_snd {α : Type} {l : List (α × ℚ)} {q : α × ℚ}
    (h : q ∈ sort_desc_by_snd l) : q ∈ l := by
  rcases mem_sort_desc_aux l [] q h with h1 | h1
  · simp at h1
  · exact h1

/-- Zipping equal-length lists and projecting the second components is the
identity on the second list. -/
theorem map_snd_zip_eq {α β : Type} :
    ∀ (l1 : List α) (l2 : List β), l1.length = l2.length →
      (l1.zip l2).map Prod.snd = l2 := by
  intro l1
  induction l1 with
  | nil =>
    intro l2 h
    cases l2 with
    | nil => rfl
    | cons b t2 => simp at h
  | cons a t ih =>
    intro l2 h
    cases l2 with
    | nil => simp at h
    | cons b t2 =>
      simp only [List.zip_cons_cons, List.map_cons]
      rw [ih t2 (by simpa using h)]

/-- C1 counterexample: with all three computed scores zero (content 0,
collaborative 0, predicted rating 1), the pre-contextual combined score is
1/10, not the claimed weighted sum 0 — the reserved contextual weight 0.2
contributes 0.2 × 0.5 through the `scores.get(approach, 0.5)` default. -/
theorem C1_counterexample :
    ¬ (hybrid_base_score 0 0 1 =
        (2/5 : ℚ) * 0 + (3/10 : ℚ) * 0 + (1/10 : ℚ) * (((1 : ℚ) - 1) / 4)) := by
  simp [hybrid_base_score, combine_scores, algorithm_weights, alookup]

/-- C1 (amended): for every content-based score, collaborative score and
predicted rating, the pre-contextual combined score equals
0.4·content + 0.3·collaborative + 0.1·(predicted − 1)/4 **plus a constant
0.1**, the constant coming from the contextual weight 0.2 applied to the
default value 0.5 used for the absent `contextual` entry of the scores
dict. -/
theorem C1_combined_score_formula (cb cf pr : ℚ) :
    hybrid_base_score cb cf pr =
      2/5 * cb + 3/10 * cf + 1/10 * ((pr - 1) / 4) + 1/10 := by
  simp [hybrid_base_score, combine_scores, algorithm_weights, alookup]
  ring

/-- C3: evaluation at the failing input.  User `u` has the learned signal
`category_museum = -1/2`; a non-empty batch (one interaction on an item
absent from the catalog) adds nothing, so the call only decays.  The code
resets the signal to 0 because it compares the decayed value signedly
(`< 0.01` with no `abs`), while the decayed value -1/2 · 19/20 = -19/40 has
magnitude 0.475 ≥ 0.01 and per the claim should have been kept. -/
theorem C3_decay_zeroes_negative_signal :
    (learn_from_interactions decayPrefState "u" decayBatch [] (1/10) (19/20)).2
        = [("category_museum", 0)] ∧
      (-1/2 : ℚ) * (19/20) = -19/40 ∧ ¬ (|(-19/40 : ℚ)| < 1/100) := by
  refine ⟨?_, by norm_num, ?_⟩
  · simp [learn_from_interactions, process_interaction, item_lookup, decayPrefState,
      decayBatch, apply_temporal_decay, alookup, dinsert]
    norm_num
  · rw [abs_of_neg (by norm_num : (-19/40 : ℚ) < 0)]
    norm_num

/-- C10: `update_user_preferences` for a user id with no stored profile is a
complete no-op — it returns the state unchanged (no profile creation, no
preference-learning update) and raises no error. -/
theorem C10_update_preferences_unknown_user_noop
    (st : EngineState) (userId : String) (preferences : PreferenceUpdate)
    (available_items : List RecommendationItem) (now : ℚ)
    (hmissing : alookup st.user_profiles userId = none) :
    update_user_preferences st userId preferences available_items now = Except.ok st := by
  unfold update_user_preferences
  rw [hmissing]

/-- C10 witness: the concrete engine state knows `carol` but not `dave`, and
updating `dave`'s preferences returns the state unchanged. -/
theorem C10_update_preferences_unknown_user_noop_witness :
    update_user_preferences feedbackState "dave" {} [] 0 = Except.ok feedbackState :=
  C10_update_preferences_unknown_user_noop feedbackState "dave" {} [] 0 rfl

/-- C7: with budget tier `low`, every candidate that survives
`_filter_candidate_items` costs at most 100; the filter removes expensive
items from the candidate set before any scoring sees them. -/
theorem C7_low_budget_filters_over_100
    (available_items : List RecommendationItem) (request : RecommendationRequest)
    (hbudget : request.preferences.budget_range = "low") :
    ∀ item ∈ filter_candidate_items available_items request,
      item.estimated_cost ≤ 100 := by
  intro item hmem
  unfold filter_candidate_items at hmem
  rw [hbudget] at hmem
  have hlk : alookup budget_ranges "low" = some ((0 : ℚ), some (100 : ℚ)) := by
    simp [budget_ranges, alookup]
  rw [hlk] at hmem
  simp only [Option.getD_some] at hmem
  split at hmem <;> split at hmem <;>
    simp only [List.mem_filter, inBudgetRange, Bool.and_eq_true,
      decide_eq_true_eq] at hmem <;>
    tauto

/-- C7 witness: the 800-cost item is excluded outright from the candidates of
a `low`-budget request. -/
theorem C7_low_budget_filters_over_100_witness :
    expensiveShowItem ∉ filter_candidate_items [expensiveShowItem] lowBudgetRequest := by
  intro hmem
  have h := C7_low_budget_filters_over_100 [expensiveShowItem] lowBudgetRequest rfl
    expensiveShowItem hmem
  norm_num [expensiveShowItem] at h

/-- C2 counterexample: a crowd factor whose payload is missing the expected
`overall_crowd_level` key is not a no-op — for an item with crowd level
`high` (multiplier 0.8) and confidence 1, `apply_contextual_scoring` turns
the score 1 into 0.8. -/
theorem C2_counterexample :
    apply_contextual_scoring (fun _ _ _ _ => 0) [highCrowdItem] [1]
      [crowdFactorNoKey] {} ≠ [1] := by
  simp [apply_contextual_scoring, applyCrowdContext, crowdFactorNoKey, highCrowdItem,
    crowd_impact_weights, alookup]
  norm_num

/-- C2 (amended): `apply_contextual_scoring` never raises on malformed
payloads, but only a time factor missing `current_time` and a location
factor missing `latitude` are guaranteed no-ops; weather, crowd and season
factors substitute defaults or apply item-level multipliers even when their
expected key is absent.  This theorem proves the no-op part for the time and
location kinds, for every equal-length item/score list. -/
theorem C2_missing_key_noop_time_location
    (dist : ℚ → ℚ → ℚ → ℚ → ℚ) (items : List RecommendationItem)
    (scores : List ℚ) (prefs : UserPreferences) (f : ContextualFactor)
    (hlen : items.length = scores.length)
    (htime : f.value.current_time = none)
    (hloc : f.value.latitude = none)
    (hkind : f.type = ContextType.time ∨ f.type = ContextType.location) :
    apply_contextual_scoring dist items scores [f] prefs = scores := by
  unfold apply_contextual_scoring
  rw [if_pos hlen]
  rcases hkind with hk | hk <;>
    simp [hk, applyTimeContext, applyLocationContext, htime, hloc]

/-- C2 witness: a concrete time factor with an empty payload leaves a
one-item score list unchanged. -/
theorem C2_missing_key_noop_time_location_witness :
    apply_contextual_scoring (fun _ _ _ _ => 0) [highCrowdItem] [(1 : ℚ)]
      [{ type := ContextType.time, value := {}, confidence := 1 }] {} = [1] :=
  C2_missing_key_noop_time_location (fun _ _ _ _ => 0) [highCrowdItem] [(1 : ℚ)] {}
    { type := ContextType.time, value := {}, confidence := 1 }
    rfl rfl rfl (Or.inl rfl)

/-- C6 (Scenario A): on a catalog of one outdoor weather-dependent item and
one indoor non-weather-dependent item, both scored 1/2, a sunny/25°
confidence-1 weather factor raises the outdoor item's score to 3/5 > 1/2 and
leaves the indoor item's score at exactly 1/2. -/
theorem C6_sunny_boosts_outdoor_only :
    apply_contextual_scoring (fun _ _ _ _ => 0)
        [outdoorPeakItem, indoorMuseumItem] [1/2, 1/2] [sunnyFactor] {}
      = [3/5, 1/2] ∧ (1/2 : ℚ) < 3/5 := by
  constructor
  · have hout : classify_item_environment outdoorPeakItem = "outdoor" := by decide
    have h1 : outdoorPeakItem.weather_dependent = true := rfl
    have h2 : indoorMuseumItem.weather_dependent = false := rfl
    have h3 : outdoorPeakItem.categories = ["outdoor", "scenic"] := rfl
    have h4 : indoorMuseumItem.categories = ["indoor", "museum"] := rfl
    simp [apply_contextual_scoring, applyWeatherContext, sunnyFactor,
      weather_impact_weights, hout, h1, h2, h3, h4, alookup]
    norm_num
  · norm_num

/-- Dividing every value by a positive constant divides the running maximum
of absolute values. -/
theorem foldl_max_abs_div (M : ℚ) (hM : 0 < M) :
    ∀ (l : List (String × ℚ)) (a : ℚ),
      (l.map (fun p => (p.1, p.2 / M))).foldl (fun acc q => max acc |q.2|) (a / M)
        = (l.foldl (fun acc q => max acc |q.2|) a) / M := by
  intro l
  induction l with
  | nil => intro a; rfl
  | cons p rest ih =>
    intro a
    simp only [List.map_cons, List.foldl_cons]
    rw [show |p.2 / M| = |p.2| / M by rw [abs_div, abs_of_pos hM]]
    rw [max_div_div_right (le_of_lt hM)]
    exact ih (max a |p.2|)

/-- `max_abs_val` of a pointwise-divided non-empty map. -/
theorem max_abs_val_div (p : String × ℚ) (rest : List (String × ℚ)) (M : ℚ)
    (hM : 0 < M) :
    max_abs_val ((p :: rest).map (fun q => (q.1, q.2 / M)))
      = max_abs_val (p :: rest) / M := by
  simp only [List.map_cons, max_abs_val]
  rw [show |p.2 / M| = |p.2| / M by rw [abs_div, abs_of_pos hM]]
  exact foldl_max_abs_div M hM rest |p.2|

/-- The normalization step is idempotent on raw maps. -/
theorem normalize_preferences_idem (m : List (String × ℚ)) :
    normalize_preferences (normalize_preferences m) = normalize_preferences m := by
  by_cases h : 1 < max_abs_val m
  · have hM : (0 : ℚ) < max_abs_val m := lt_trans zero_lt_one h
    have h1 : normalize_preferences m = m.map (fun p => (p.1, p.2 / max_abs_val m)) := by
      unfold normalize_preferences
      rw [if_pos h]
    rw [h1]
    cases m with
    | nil => simp [max_abs_val] at h
    | cons p rest =>
      unfold normalize_preferences
      rw [max_abs_val_div p rest _ hM, div_self (ne_of_gt hM)]
      rw [if_neg (lt_irrefl 1)]
  · have h1 : normalize_preferences m = m := by
      unfold normalize_preferences
      rw [if_neg h]
    rw [h1, h1]

/-- C9: the learned-preference normalization performed by
`get_learned_preferences` is idempotent — re-normalizing a map it has
produced returns the same map, for every stored state and user. -/
theorem C9_normalization_idempotent (st : PrefState) (userId : String) :
    normalize_preferences (get_learned_preferences st userId)
      = get_learned_preferences st userId := by
  unfold get_learned_preferences
  cases alookup st userId with
  | none => simp [normalize_preferences, max_abs_val]
  | some m => exact normalize_preferences_idem m

/-- C8: `process_feedback` with a recommendation id that does not occur in the
user's stored recommendation history returns without error and leaves the
whole engine state — profiles, histories, learned preferences and
collaborative state — unchanged, for every recompute function. -/
theorem C8_unknown_feedback_id_noop
    (recompute : CollabState → CollabState) (st : EngineState)
    (userId recommendationId : String) (rating : ℚ) (feedback : Option String)
    (hunknown : ∀ r ∈ (alookup st.recommendation_history userId).getD [],
      r.id ≠ recommendationId) :
    process_feedback recompute st userId recommendationId rating feedback
      = Except.ok st := by
  have hfind : ((alookup st.recommendation_history userId).getD []).find?
      (fun r => r.id = recommendationId) = none := by
    rw [List.find?_eq_none]
    intro x hx
    simpa using hunknown x hx
  simp only [process_feedback, hfind]

/-- C8 witness: user `carol` exists with one stored recommendation `rec_1`;
feedback on the unknown id `rec_unknown` returns the state unchanged. -/
theorem C8_unknown_feedback_id_noop_witness :
    process_feedback id feedbackState "carol" "rec_unknown" 5 none
      = Except.ok feedbackState :=
  C8_unknown_feedback_id_noop id feedbackState "carol" "rec_unknown" 5 none (by
    intro r hr
    simp [feedbackState, alookup] at hr
    subst hr
    decide)

/-- The collaborative base weight of any interaction type lies in [0, 4]. -/
theorem collab_base_weight_bounds (s : String) :
    0 ≤ (alookup collab_interaction_weights s).getD 1 ∧
      (alookup collab_interaction_weights s).getD 1 ≤ 4 := by
  simp only [collab_interaction_weights, alookup]
  split_ifs <;> norm_num

/-- With its optional rating in [0, 5], a collaborative interaction weight
lies in [0, 4]. -/
theorem collab_interaction_weight_bounds (i : UserInteraction)
    (hr : ∀ r, i.rating = some r → 0 ≤ r ∧ r ≤ 5) :
    0 ≤ collab_interaction_weight i ∧ collab_interaction_weight i ≤ 4 := by
  obtain ⟨hb0, hb4⟩ := collab_base_weight_bounds i.interaction_type
  cases hri : i.rating with
  | none =>
    simp only [collab_interaction_weight, hri]
    exact ⟨hb0, hb4⟩
  | some r =>
    obtain ⟨hr0, hr5⟩ := hr r hri
    simp only [collab_interaction_weight, hri]
    have h1 : r / 5 ≤ 1 := by
      rw [div_le_one (by norm_num : (0:ℚ) < 5)]
      exact hr5
    have h2 : 0 ≤ r / 5 := div_nonneg hr0 (by norm_num)
    constructor
    · exact mul_nonneg hb0 h2
    · calc (alookup collab_interaction_weights i.interaction_type).getD 1 * (r / 5)
          ≤ (alookup collab_interaction_weights i.interaction_type).getD 1 * 1 :=
            mul_le_mul_of_nonneg_left h1 hb0
        _ = (alookup collab_interaction_weights i.interaction_type).getD 1 := mul_one _
        _ ≤ 4 := hb4

/-- Summing contribution pairs that are pointwise bounded by four times their
similarity keeps the bound. -/
theorem sum_contrib_bounds :
    ∀ (l : List (ℚ × ℚ)), (∀ p ∈ l, 0 ≤ p.2 ∧ 0 ≤ p.1 ∧ p.1 ≤ 4 * p.2) →
      0 ≤ (l.map Prod.fst).sum ∧ (l.map Prod.fst).sum ≤ 4 * (l.map Prod.snd).sum := by
  intro l
  induction l with
  | nil => intro _; norm_num
  | cons p rest ih =>
    intro h
    obtain ⟨hp2, hp0, hp4⟩ := h p (List.mem_cons_self _ _)
    obtain ⟨ih0, ih4⟩ := ih (fun q hq => h q (List.mem_cons_of_mem _ hq))
    simp only [List.map_cons, List.sum_cons]
    constructor
    · exact add_nonneg hp0 ih0
    · calc p.1 + (rest.map Prod.fst).sum
          ≤ 4 * p.2 + 4 * (rest.map Prod.snd).sum := add_le_add hp4 ih4
        _ = 4 * (p.2 + (rest.map Prod.snd).sum) := by ring

/-- Each neighbor contribution pair `(similarity · weight, similarity)` has a
nonnegative similarity and a first component in `[0, 4 · similarity]`. -/
theorem neighbor_contribs_bounds (cs : CollabState) (sus : List (String × ℚ))
    (itemId : String)
    (hsus : ∀ q ∈ sus, 0 ≤ q.2)
    (hprof : ∀ e ∈ cs.user_profiles, ∀ i ∈ e.2.interaction_history,
      ∀ r, i.rating = some r → 0 ≤ r ∧ r ≤ 5) :
    ∀ p ∈ neighbor_contribs cs sus itemId, 0 ≤ p.2 ∧ 0 ≤ p.1 ∧ p.1 ≤ 4 * p.2 := by
  intro p hp
  obtain ⟨su, hsu, hf⟩ := List.mem_filterMap.1 hp
  cases hl : alookup cs.user_profiles su.1 with
  | none =>
    simp [hl] at hf
  | some sp =>
    simp only [hl] at hf
    cases hfind : sp.interaction_history.find? (fun i => i.item_id = itemId) with
    | none =>
      simp [hfind] at hf
    | some inter =>
      simp only [hfind] at hf
      simp at hf
      obtain ⟨hw0, hw4⟩ := collab_interaction_weight_bounds inter
        (hprof _ (alookup_mem hl) inter (List.mem_of_find?_eq_some hfind))
      have hs0 : 0 ≤ su.2 := hsus su hsu
      rw [← hf]
      refine ⟨hs0, mul_nonneg hs0 hw0, ?_⟩
      calc su.2 * collab_interaction_weight inter
          ≤ su.2 * 4 := mul_le_mul_of_nonneg_left hw4 hs0
        _ = 4 * su.2 := mul_comm _ _

/-- Every neighbor returned by `find_similar_users` keeps the nonnegativity
of the stored similarity table. -/
theorem find_similar_users_nonneg (cs : CollabState) (userId : String) (k : Nat)
    (hsim : ∀ e ∈ cs.user_similarities, ∀ q ∈ e.2, 0 ≤ q.2) :
    ∀ q ∈ find_similar_users cs userId k, 0 ≤ q.2 := by
  intro q hq
  unfold find_similar_users at hq
  cases hl : alookup cs.user_similarities userId with
  | none =>
    rw [hl] at hq
    simp at hq
  | some sims =>
    rw [hl] at hq
    exact hsim _ (alookup_mem hl) q (mem_sort_desc_by_snd (List.mem_of_mem_take hq))

/-- Every value stored by the `item_scores` fold lies in [0, 4] when neighbor
similarities are nonnegative and ratings lie in [0, 5]. -/
theorem mem_collab_fold_bound (cs : CollabState) (sus : List (String × ℚ))
    (interacted : List String)
    (hsus : ∀ q ∈ sus, 0 ≤ q.2)
    (hprof : ∀ e ∈ cs.user_profiles, ∀ i ∈ e.2.interaction_history,
      ∀ r, i.rating = some r → 0 ≤ r ∧ r ≤ 5) :
    ∀ (items : List RecommendationItem) (acc : List (String × ℚ)),
      (∀ q ∈ acc, 0 ≤ q.2 ∧ q.2 ≤ 4) →
      ∀ q ∈ items.foldl (collab_score_step cs sus interacted) acc,
        0 ≤ q.2 ∧ q.2 ≤ 4 := by
  intro items
  induction items with
  | nil => intro acc hacc q hq; exact hacc q hq
  | cons item rest ih =>
    intro acc hacc q hq
    rw [List.foldl_cons] at hq
    refine ih _ ?_ q hq
    intro q2 hq2
    unfold collab_score_step at hq2
    split at hq2
    · exact hacc q2 hq2
    · simp only [] at hq2
      split at hq2
      · next htw =>
        rcases mem_dinsert hq2 with h1 | h1
        · obtain ⟨hsum0, hsum4⟩ :=
            sum_contrib_bounds (neighbor_contribs cs sus item.id)
              (neighbor_contribs_bounds cs sus item.id hsus hprof)
          rw [h1]
          refine ⟨div_nonneg hsum0 (le_of_lt htw), ?_⟩
          rw [div_le_iff₀ htw]
          linarith [hsum4]
        · exact hacc q2 h1
      · exact hacc q2 hq2

/-- Every key stored by the `item_scores` fold was not interacted with and has
a positive total similarity weight. -/
theorem mem_collab_fold_keys (cs : CollabState) (sus : List (String × ℚ))
    (interacted : List String) :
    ∀ (items : List RecommendationItem) (acc : List (String × ℚ)),
      ∀ q ∈ items.foldl (collab_score_step cs sus interacted) acc,
        q ∈ acc ∨ (interacted.contains q.1 = false ∧
          0 < ((neighbor_contribs cs sus q.1).map Prod.snd).sum) := by
  intro items
  induction items with
  | nil => intro acc q hq; exact Or.inl hq
  | cons item rest ih =>
    intro acc q hq
    rw [List.foldl_cons] at hq
    rcases ih _ q hq with h1 | h1
    · unfold collab_score_step at h1
      split at h1
      · exact Or.inl h1
      · next hni =>
        simp only [] at h1
        split at h1
        · next htw =>
          rcases mem_dinsert h1 with h2 | h2
          · refine Or.inr ?_
            rw [h2]
            exact ⟨by simpa using hni, htw⟩
          · exact Or.inl h2
        · exact Or.inl h1
    · exact Or.inr h1

/-- Every pair returned by `generate_collaborative_recommendations` comes from
an `item_scores` entry: the item carries the entry's id and the entry's
score. -/
theorem mem_collab_result (cs : CollabState) (userId : String)
    (items : List RecommendationItem) (k : Nat) {it : RecommendationItem} {s : ℚ}
    (h : (it, s) ∈ generate_collaborative_recommendations cs userId items k) :
    ∃ profile, alookup cs.user_profiles userId = some profile ∧
      ∃ q ∈ items.foldl
          (collab_score_step cs (find_similar_users cs userId 10)
            (profile.interaction_history.map (fun i => i.item_id))) [],
        it.id = q.1 ∧ s = q.2 := by
  unfold generate_collaborative_recommendations at h
  cases hl : alookup cs.user_profiles userId with
  | none =>
    rw [hl] at h
    simp only [] at h
    split at h <;> simp at h
  | some profile =>
    rw [hl] at h
    simp only [] at h
    refine ⟨profile, rfl, ?_⟩
    split at h
    · simp at h
    · obtain ⟨p, hp, hf⟩ := List.mem_filterMap.1 h
      cases hfind : items.find? (fun item => item.id = p.1) with
      | none =>
        simp [hfind] at hf
      | some it2 =>
        simp only [hfind] at hf
        simp at hf
        obtain ⟨hit, hs⟩ := hf
        have hid : it2.id = p.1 := by
          have h2 := List.find?_some hfind
          simpa using h2
        refine ⟨p, mem_sort_desc_by_snd (List.mem_of_mem_take hp), ?_, hs.symm⟩
        rw [← hit, hid]

/-- C5: the collaborative recommendations for a target user never contain an
item whose id appears in that user's interaction history, and any candidate
id whose total neighbor similarity weight is not positive is omitted from
the results entirely. -/
theorem C5_collaborative_excludes_interacted
    (cs : CollabState) (userId : String) (items : List RecommendationItem)
    (k : Nat) (profile : UserProfile)
    (hprofile : alookup cs.user_profiles userId = some profile) :
    (∀ it s, (it, s) ∈ generate_collaborative_recommendations cs userId items k →
        it.id ∉ profile.interaction_history.map (fun i => i.item_id)) ∧
    (∀ itemId : String,
        ((neighbor_contribs cs (find_similar_users cs userId 10) itemId).map
            Prod.snd).sum ≤ 0 →
        ∀ it s, (it, s) ∈ generate_collaborative_recommendations cs userId items k →
          it.id ≠ itemId) := by
  constructor
  · intro it s hmem
    obtain ⟨profile2, hl2, q, hq, hid, hs⟩ := mem_collab_result cs userId items k hmem
    rw [hprofile] at hl2
    injection hl2 with hp2
    subst hp2
    rcases mem_collab_fold_keys cs _ _ items [] q hq with h1 | h1
    · simp at h1
    · rw [hid]
      simpa using h1.1
  · intro itemId hw it s hmem
    obtain ⟨profile2, hl2, q, hq, hid, hs⟩ := mem_collab_result cs userId items k hmem
    rcases mem_collab_fold_keys cs _ _ items [] q hq with h1 | h1
    · simp at h1
    · intro hc
      rw [hid] at hc
      rw [hc] at h1
      linarith [h1.2]

/-- C5 witness: in the concrete two-user state the returned pair
`(collabItemX, 4)` has an id outside alice's (empty) interaction history. -/
theorem C5_collaborative_excludes_interacted_witness :
    collabItemX.id ∉ aliceProfile.interaction_history.map (fun i => i.item_id) := by
  have heval : generate_collaborative_recommendations collabStateHighScore "alice"
      [collabItemX] 20 = [(collabItemX, 4)] := by
    simp [generate_collaborative_recommendations, collab_score_step, find_similar_users,
      sort_desc_by_snd, insert_desc_by_snd, collabStateHighScore, aliceProfile,
      bobProfile, collabItemX, neighbor_contribs, collab_interaction_weight,
      collab_interaction_weights, alookup, dinsert]
  exact (C5_collaborative_excludes_interacted collabStateHighScore "alice"
      [collabItemX] 20 aliceProfile rfl).1 collabItemX 4
    (by rw [heval]; exact List.mem_singleton_self _)

/-- C4 counterexample: in the concrete state, the collaborative score the
orchestrator consumes for `collabItemX` is 4 (one neighbor at similarity 1
with a ratingless `rate` interaction of weight 4), which is outside the
claimed range [0, 1]. -/
theorem C4_counterexample :
    collab_score_for_item collabStateHighScore "alice" collabItemX = 4 ∧
      ¬ (collab_score_for_item collabStateHighScore "alice" collabItemX ≤ 1) := by
  have heval : collab_score_for_item collabStateHighScore "alice" collabItemX = 4 := by
    simp [collab_score_for_item, generate_collaborative_recommendations,
      collab_score_step, find_similar_users, sort_desc_by_snd, insert_desc_by_snd,
      collabStateHighScore, aliceProfile, bobProfile, collabItemX, neighbor_contribs,
      collab_interaction_weight, collab_interaction_weights, alookup, dinsert]
  refine ⟨heval, ?_⟩
  rw [heval]
  norm_num

/-- C4 (amended): the per-item collaborative score consumed by the
orchestrator defaults to 0.5 when no collaborative recommendation is
available, and otherwise is a similarity-weighted average of interaction
weights: it lies in [0, 4] — not [0, 1] — whenever the stored similarities
are nonnegative and every rating lies in [0, 5]. -/
theorem C4_collab_score_default_and_bounds
    (cs : CollabState) (userId : String) (item : RecommendationItem)
    (hsim : ∀ e ∈ cs.user_similarities, ∀ q ∈ e.2, 0 ≤ q.2)
    (hprof : ∀ e ∈ cs.user_profiles, ∀ i ∈ e.2.interaction_history,
      ∀ r, i.rating = some r → 0 ≤ r ∧ r ≤ 5) :
    (generate_collaborative_recommendations cs userId [item] 1 = [] →
      collab_score_for_item cs userId item = 1/2) ∧
    (0 ≤ collab_score_for_item cs userId item ∧
      collab_score_for_item cs userId item ≤ 4) := by
  constructor
  · intro hempty
    unfold collab_score_for_item
    rw [hempty]
  · unfold collab_score_for_item
    cases hg : generate_collaborative_recommendations cs userId [item] 1 with
    | nil => norm_num
    | cons p rest =>
      simp only []
      have hmem : (p.1, p.2) ∈ generate_collaborative_recommendations cs userId [item] 1 := by
        rw [hg]
        exact List.mem_cons_self _ _
      obtain ⟨profile, hl, q, hq, hid, hs⟩ := mem_collab_result cs userId [item] 1 hmem
      have hb := mem_collab_fold_bound cs (find_similar_users cs userId 10)
        (profile.interaction_history.map (fun i => i.item_id))
        (find_similar_users_nonneg cs userId 10 hsim) hprof [item] []
        (by simp) q hq
      rw [← hs] at hb
      exact hb

/-- C4 witness: the amended bounds applied to the concrete two-user state
(where the consumed score is in fact 4). -/
theorem C4_collab_score_default_and_bounds_witness :
    0 ≤ collab_score_for_item collabStateHighScore "alice" collabItemX ∧
      collab_score_for_item collabStateHighScore "alice" collabItemX ≤ 4 :=
  (C4_collab_score_default_and_bounds collabStateHighScore "alice" collabItemX
    (by
      intro e he
      simp only [collabStateHighScore] at he
      fin_cases he
      intro q hq
      fin_cases hq
      norm_num)
    (by
      intro e he
      simp only [collabStateHighScore] at he
      fin_cases he
      · intro i hi
        simp [aliceProfile] at hi
      · intro i hi
        simp [bobProfile] at hi
        subst hi
        intro r hr
        simp at hr)).2
